import Mathlib

/-!
Verification of the episodic (few-shot) training notebook
`few_shot_classifier.ipynb`.

The notebook's own logic is a fixed-epoch training loop: per epoch one
training pass over sampled episodes, one validation pass producing
recall/F1, best-metric tracking, a `MultiStepLR` schedule, and a final
`load_state_dict` of the retained `best_state`.

Model parameters are PyTorch tensors mutated in place by the optimizer;
`Module.state_dict()` returns a dict whose values reference the live
parameter tensors (no copy), and `load_state_dict` copies values into the
parameter tensors.  We embed this with an explicit heap of storage cells:
a `Model` owns a fixed list of cell ids, a `StateDict` is a list of cell
ids (references), the optimizer writes cells in place, and
`load_state_dict` copies cell values.

The helper module `FSLMethods` (`training_epoch`, `evaluate_model`) and
the data/network modules are imported by the notebook but their sources
are not part of the repository snapshot; they are modelled from the spec
where noted, parameterised by an environment `Env` providing the numeric
behaviour (per-episode loss, gradient update, predictions, task
sampling) that the external library computes.
-/

namespace FewShot

/-- Number of classes per episodic task (`N_WAY = 2` in the notebook). -/
def N_WAY : ℕ := 2

/-- Support examples per class (`N_SHOT = 2`). -/
def N_SHOT : ℕ := 2

/-- Query examples per class (`N_QUERY = 3`). -/
def N_QUERY : ℕ := 3

/-- Training tasks sampled per epoch (`N_TASKS_PER_EPOCH = 10`). -/
def N_TASKS_PER_EPOCH : ℕ := 10

/-- Validation tasks per epoch (`N_VALIDATION_TASKS = 100`). -/
def N_VALIDATION_TASKS : ℕ := 100

/-- Number of epochs of the training loop (`N_EPOCHS = 100`). -/
def N_EPOCHS : ℕ := 100

/-- Optimizer learning rate (`LEARNING_RATE = 0.001`). -/
def LEARNING_RATE : ℚ := 1 / 1000

/-- Scheduler decay factor (`scheduler_gamma = 0.1`). -/
def scheduler_gamma : ℚ := 1 / 10

/-- Scheduler milestone epochs (`scheduler_milestones = [70, 85]`). -/
def scheduler_milestones : List ℕ := [70, 85]

/-- The notebook seeds numpy, torch and random with `random_seed = 0`. -/
def random_seed : ℕ := 0

/-- Storage-cell identifier: one cell per (scalar slot of a) parameter
tensor. -/
abbrev CellId := ℕ

/-- The tensor store: cell `i` holds the value `h.getD i 0`. -/
abbrev Heap := List ℚ

/-- A `state_dict`: an ordered collection whose entries are references to
parameter storage cells (PyTorch `state_dict` values alias the live
tensors; they are not copies). -/
structure StateDict where
  refs : List CellId
deriving DecidableEq

/-- A module: it owns a fixed list of parameter cells.  The parameter
VALUES live in the heap; the cell ids never change, mirroring how the
optimizer updates tensors in place. -/
structure Model where
  paramRefs : List CellId
deriving DecidableEq

/-- `model.state_dict()`: returns references to the live parameter cells
(no deep copy), as PyTorch does. -/
def Model.state_dict (m : Model) : StateDict :=
  ⟨m.paramRefs⟩

/-- The current parameter values of a model under a heap. -/
def Model.params (m : Model) (h : Heap) : List ℚ :=
  m.paramRefs.map (fun i => h.getD i 0)

/-- The values a `state_dict` denotes under a heap (dereferencing its
cell references). -/
def StateDict.values (sd : StateDict) (h : Heap) : List ℚ :=
  sd.refs.map (fun i => h.getD i 0)

/-- In-place write of new parameter values into the model's cells
(the optimizer step mutates tensors in place). -/
def writeParams (m : Model) (vs : List ℚ) (h : Heap) : Heap :=
  (m.paramRefs.zip vs).foldl (fun acc iv => acc.set iv.1 iv.2) h

/-- `model.load_state_dict(sd)`: copies each referenced value of `sd`
into the corresponding parameter cell of `m` (PyTorch copies data into
the existing tensors). -/
def Model.load_state_dict (m : Model) (sd : StateDict) (h : Heap) : Heap :=
  (m.paramRefs.zip sd.refs).foldl (fun acc ds => acc.set ds.1 (h.getD ds.2 0)) h

/-- State of `torch.optim.lr_scheduler.MultiStepLR`: milestone epochs, the
decay factor `gamma`, the step counter `last_epoch` (0 right after
construction) and the optimizer's current learning rate. -/
structure MultiStepLR where
  milestones : List ℕ
  gamma : ℚ
  last_epoch : ℕ
  lr : ℚ
deriving DecidableEq

/-- `scheduler.step()`: increments `last_epoch` and multiplies the
learning rate by `gamma` exactly when the new `last_epoch` is one of the
milestones. -/
def MultiStepLR.step (s : MultiStepLR) : MultiStepLR :=
  { s with
    last_epoch := s.last_epoch + 1
    lr := if s.last_epoch + 1 ∈ s.milestones then s.gamma * s.lr else s.lr }

/-- State of the pseudo-random number generators (numpy/torch/random),
abstracted as a single stream position. -/
abbrev Rng := ℕ

/-- An episodic task.  Only the query-set ground-truth labels are
observable to the modelled metrics (binary labels: `true` = positive
class). -/
structure Episode where
  queryActuals : List Bool
deriving DecidableEq

/-- The numeric behaviour delegated to the external library (easyfsl
sampling, forward/backward passes, predictions), abstracted as pure
functions of the RNG stream and the current parameter values. -/
structure Env where
  sampleTask : Rng → Episode × Rng
  episodeLoss : List ℚ → Episode → ℚ
  sgdStep : ℚ → List ℚ → Episode → List ℚ
  predict : List ℚ → Episode → List Bool

/-- Draw `n` tasks in sequence from the RNG stream, as a `TaskSampler`
configured with `n_tasks = n` yields per iteration of its loader. -/
def sampleTasksF (f : Rng → Episode × Rng) : ℕ → Rng → List Episode × Rng
  | 0, r => ([], r)
  | n + 1, r =>
      let er := f r
      let rest := sampleTasksF f n er.2
      (er.1 :: rest.1, rest.2)

/-- Tasks drawn by an environment's sampler. -/
def sampleTasks (env : Env) (n : ℕ) (r : Rng) : List Episode × Rng :=
  sampleTasksF env.sampleTask n r

/-- Modelled from the spec: `training_epoch` from the repository module
`FSLMethods`, whose source is not in the snapshot.  Per the spec it runs
one training pass over the sampled episodes — forward pass, cross-entropy
loss, backward pass, optimizer step (in place, at the optimizer's current
learning rate) — producing a mean loss.  The embedding returns the
updated heap and the list of per-episode losses; the caller takes their
mean. -/
def training_epoch (env : Env) (m : Model) (lr : ℚ) :
    List Episode → Heap → Heap × List ℚ
  | [], h => (h, [])
  | ep :: eps, h =>
      let p := m.params h
      let loss := env.episodeLoss p ep
      let h1 := writeParams m (env.sgdStep lr p ep) h
      let rest := training_epoch env m lr eps h1
      (rest.1, loss :: rest.2)

/-- Arithmetic mean (`statistics.mean`); on `ℚ` the empty case yields 0
by the convention `x / 0 = 0`. -/
def mean (xs : List ℚ) : ℚ :=
  xs.sum / xs.length

/-- True positives of binary predictions against ground truth. -/
def truePositives (actuals predictions : List Bool) : ℕ :=
  ((actuals.zip predictions).filter (fun p => p.1 && p.2)).length

/-- False negatives of binary predictions against ground truth. -/
def falseNegatives (actuals predictions : List Bool) : ℕ :=
  ((actuals.zip predictions).filter (fun p => p.1 && !p.2)).length

/-- False positives of binary predictions against ground truth. -/
def falsePositives (actuals predictions : List Bool) : ℕ :=
  ((actuals.zip predictions).filter (fun p => !p.1 && p.2)).length

/-- Binary recall, TP / (TP + FN); an undefined ratio is reported as 0
(sklearn's zero-division behaviour, with warnings suppressed by the
notebook). -/
def recall_score (actuals predictions : List Bool) : ℚ :=
  (truePositives actuals predictions : ℚ) /
    ((truePositives actuals predictions : ℚ) + (falseNegatives actuals predictions : ℚ))

/-- Binary precision, TP / (TP + FP), with the same zero-division
convention. -/
def precision_score (actuals predictions : List Bool) : ℚ :=
  (truePositives actuals predictions : ℚ) /
    ((truePositives actuals predictions : ℚ) + (falsePositives actuals predictions : ℚ))

/-- Binary F1, the harmonic mean of precision and recall, with the same
zero-division convention. -/
def f1_score (actuals predictions : List Bool) : ℚ :=
  2 * precision_score actuals predictions * recall_score actuals predictions /
    (precision_score actuals predictions + recall_score actuals predictions)

/-- The outputs of `evaluate_model` that the notebook keeps (it discards
three further returned scalars). -/
structure EvalOut where
  actuals : List Bool
  predictions : List Bool
  recallVal : ℚ
  f1 : ℚ
deriving DecidableEq

/-- Modelled from the spec: `evaluate_model` from the repository module
`FSLMethods`, whose source is not in the snapshot.  Per the spec it runs
a validation pass over the given episodes producing predictions and the
derived recall and F1; it does not mutate the parameters. -/
def evaluate_model (env : Env) (m : Model) (episodes : List Episode) (h : Heap) : EvalOut :=
  let actuals := (episodes.map Episode.queryActuals).flatten
  let predictions := (episodes.map (env.predict (m.params h))).flatten
  ⟨actuals, predictions, recall_score actuals predictions, f1_score actuals predictions⟩

/-- The mutable state of the training cell: the tensor heap, the retained
`best_state` (a `state_dict`), the best scalar metrics, the scheduler
(which owns the optimizer's learning rate), the RNG position, and the
number of times the "Ding ding ding! We found a new best model!" line was
printed. -/
structure LoopState where
  heap : Heap
  best_state : StateDict
  best_f1_score : ℚ
  best_recall : ℚ
  sched : MultiStepLR
  rng : Rng
  dings : ℕ
deriving DecidableEq

/-- Per-epoch observables: the sampled episodes, per-episode training
losses and their mean (the logged `Train/loss`), the validation actuals
and predictions, the derived recall and F1 (the logged scalars), and the
learning rate in force during the epoch's training pass. -/
structure EpochTrace where
  trainEpisodes : List Episode
  valEpisodes : List Episode
  losses : List ℚ
  loss : ℚ
  actuals : List Bool
  predictions : List Bool
  recallVal : ℚ
  f1 : ℚ
  lrUsed : ℚ
deriving DecidableEq

/-- The tail of the loop body after the two library calls: the
`best_f1_score` update, the `best_recall` / `best_state` update (with its
print), and the `train_scheduler.step()` — exactly the notebook's
statement order. -/
def epochFinish (m : Model) (s : LoopState) (trainEps : List Episode) (h1 : Heap)
    (losses : List ℚ) (valEps : List Episode) (r2 : Rng) (ev : EvalOut) :
    LoopState × EpochTrace :=
  ({ heap := h1
   , best_state := if ev.recallVal > s.best_recall then m.state_dict else s.best_state
   , best_f1_score := if ev.f1 > s.best_f1_score then ev.f1 else s.best_f1_score
   , best_recall := if ev.recallVal > s.best_recall then ev.recallVal else s.best_recall
   , sched := s.sched.step
   , rng := r2
   , dings := if ev.recallVal > s.best_recall then s.dings + 1 else s.dings }
  , { trainEpisodes := trainEps
    , valEpisodes := valEps
    , losses := losses
    , loss := mean losses
    , actuals := ev.actuals
    , predictions := ev.predictions
    , recallVal := ev.recallVal
    , f1 := ev.f1
    , lrUsed := s.sched.lr })

/-- One iteration of the notebook's `for epoch in range(N_EPOCHS)` body:
a training pass over `N_TASKS_PER_EPOCH` freshly sampled episodes, a
validation pass over `N_VALIDATION_TASKS` freshly sampled episodes, the
best-metric updates and the scheduler step. -/
def epochBody (env : Env) (m : Model) (s : LoopState) : LoopState × EpochTrace :=
  let ts := sampleTasks env N_TASKS_PER_EPOCH s.rng
  let tr := training_epoch env m s.sched.lr ts.1 s.heap
  let vs := sampleTasks env N_VALIDATION_TASKS ts.2
  let ev := evaluate_model env m vs.1 tr.1
  epochFinish m s ts.1 tr.1 tr.2 vs.1 vs.2 ev

/-- `k` iterations of the loop body, collecting the per-epoch trace. -/
def runLoop (env : Env) (m : Model) : ℕ → LoopState → LoopState × List EpochTrace
  | 0, s => (s, [])
  | n + 1, s =>
      let bt := epochBody env m s
      let rest := runLoop env m n bt.1
      (rest.1, bt.2 :: rest.2)

/-- The state set up just before the loop: `best_state = model.state_dict()`
(a reference, not a copy), `best_f1_score = 0.0`, `best_recall = 0.0`, the
freshly constructed scheduler, the seeded RNG, and no prints yet. -/
def initState (m : Model) (h0 : Heap) (r0 : Rng) : LoopState :=
  { heap := h0
  , best_state := m.state_dict
  , best_f1_score := 0
  , best_recall := 0
  , sched := { milestones := scheduler_milestones, gamma := scheduler_gamma
             , last_epoch := 0, lr := LEARNING_RATE }
  , rng := r0
  , dings := 0 }

/-- The loop state after iteration `k` of the `N_EPOCHS` loop started
from the seeded initial state. -/
def stateAfter (env : Env) (m : Model) (h0 : Heap) (r0 : Rng) (k : ℕ) : LoopState :=
  (runLoop env m k (initState m h0 r0)).1

/-- The loop state after all `N_EPOCHS` epochs, before the final
`load_state_dict`. -/
def finalState (env : Env) (m : Model) (h0 : Heap) (r0 : Rng) : LoopState :=
  stateAfter env m h0 r0 N_EPOCHS

/-- The full per-epoch trace of the `N_EPOCHS` run. -/
def trainingTrace (env : Env) (m : Model) (h0 : Heap) (r0 : Rng) : List EpochTrace :=
  (runLoop env m N_EPOCHS (initState m h0 r0)).2

/-- The heap after the loop and the final
`model.load_state_dict(best_state)`. -/
def finalHeap (env : Env) (m : Model) (h0 : Heap) (r0 : Rng) : Heap :=
  m.load_state_dict (finalState env m h0 r0).best_state (finalState env m h0 r0).heap

/-- Iterated scheduler stepping. -/
def stepIter : ℕ → MultiStepLR → MultiStepLR
  | 0, s => s
  | n + 1, s => stepIter n s.step

/-- Big-step reading of one iteration of the notebook's loop body as a
relation: the two library calls are related to their results, then the
body's tail (`epochFinish`) assembles the next state and the trace
entry. -/
inductive EpochRel (env : Env) (m : Model) : LoopState → LoopState × EpochTrace → Prop
  | step (s : LoopState) (trainEps : List Episode) (r1 : Rng) (h1 : Heap)
      (losses : List ℚ) (valEps : List Episode) (r2 : Rng) (ev : EvalOut)
      (hts : sampleTasks env N_TASKS_PER_EPOCH s.rng = (trainEps, r1))
      (htr : training_epoch env m s.sched.lr trainEps s.heap = (h1, losses))
      (hvs : sampleTasks env N_VALIDATION_TASKS r1 = (valEps, r2))
      (hev : evaluate_model env m valEps h1 = ev) :
      EpochRel env m s (epochFinish m s trainEps h1 losses valEps r2 ev)

/-- Big-step reading of `k` iterations of the loop, collecting the
trace. -/
inductive RunRel (env : Env) (m : Model) : ℕ → LoopState → LoopState × List EpochTrace → Prop
  | zero (s : LoopState) : RunRel env m 0 s (s, [])
  | succ (n : ℕ) (s s1 : LoopState) (t : EpochTrace) (s2 : LoopState)
      (ts : List EpochTrace)
      (hb : EpochRel env m s (s1, t)) (hr : RunRel env m n s1 (s2, ts)) :
      RunRel env m (n + 1) s (s2, t :: ts)

/-- Exceptions raised by the framework calls. -/
abbrev Err := String

/-- The environment with fallible library calls: the training pass and
the validation pass may raise (shape mismatch, NaN loss, ...). -/
structure EnvE where
  sampleTask : Rng → Episode × Rng
  trainingCall : ℚ → List Episode → Heap → Except Err (Heap × List ℚ)
  evalCall : List Episode → Heap → Except Err EvalOut

/-- The loop body with fallible calls.  The notebook contains no
try/except: each call is sequenced directly, so an exception aborts the
body. -/
def epochBodyE (env : EnvE) (m : Model) (s : LoopState) :
    Except Err (LoopState × EpochTrace) := do
  let ts := sampleTasksF env.sampleTask N_TASKS_PER_EPOCH s.rng
  let tr ← env.trainingCall s.sched.lr ts.1 s.heap
  let vs := sampleTasksF env.sampleTask N_VALIDATION_TASKS ts.2
  let ev ← env.evalCall vs.1 tr.1
  pure (epochFinish m s ts.1 tr.1 tr.2 vs.1 vs.2 ev)

/-- The loop with fallible calls: no handler surrounds the body, so the
first exception aborts the remaining epochs. -/
def runLoopE (env : EnvE) (m : Model) : ℕ → LoopState → Except Err (LoopState × List EpochTrace)
  | 0, s => .ok (s, [])
  | n + 1, s => do
      let bt ← epochBodyE env m s
      let rest ← runLoopE env m n bt.1
      pure (rest.1, bt.2 :: rest.2)

/-- A fallible environment whose training pass raises on every call. -/
def failEnvE : EnvE :=
  { sampleTask := fun r => (⟨[true]⟩, r + 1)
  , trainingCall := fun _ _ _ => .error "NaN loss"
  , evalCall := fun _ _ => .error "NaN loss" }

/-- A concrete environment used to exercise the loop on explicit inputs:
every sampled episode has a single positive query; each optimizer step
increments every parameter by one; the model predicts the positive class
exactly when its (single) parameter value equals 10. -/
def cexEnv : Env :=
  { sampleTask := fun r => (⟨[true]⟩, r + 1)
  , episodeLoss := fun _ _ => 0
  , sgdStep := fun _ p _ => p.map (fun x => x + 1)
  , predict := fun p _ => [decide (p.headD 0 = 10)] }

/-- A one-parameter model whose parameter lives in cell 0. -/
def cexModel : Model := ⟨[0]⟩

/-- The pre-loop state for the concrete runs: parameter value 0, seeded
RNG. -/
def cexInit : LoopState := initState cexModel [0] random_seed

/-- A concrete environment on which every validation recall is 0: the
model always predicts the negative class, so recall is 0 in every epoch;
each optimizer step sets the parameter to 5 (training does change the
untrained parameter value 0); the sampler leaves the stream position
unchanged. -/
def zeroRecallEnv : Env :=
  { sampleTask := fun r => (⟨[true]⟩, r)
  , episodeLoss := fun _ _ => 0
  , sgdStep := fun _ _ _ => [5]
  , predict := fun _ _ => [false] }

/-- The loop state reached by `zeroRecallEnv` after any positive number
of epochs, parameterised by the scheduler state. -/
def steadyState (sch : MultiStepLR) : LoopState :=
  { heap := [5]
  , best_state := cexModel.state_dict
  , best_f1_score := 0
  , best_recall := 0
  , sched := sch
  , rng := 0
  , dings := 0 }

/-- The loop state reached by `zeroRecallEnv` after `k` epochs: steady
heap and metrics, scheduler stepped `k` times. -/
def zrState (k : ℕ) (lr : ℚ) : LoopState :=
  steadyState { milestones := scheduler_milestones, gamma := scheduler_gamma
              , last_epoch := k, lr := lr }

/-- The scheduler as freshly constructed before the loop. -/
def initSched : MultiStepLR :=
  { milestones := scheduler_milestones
  , gamma := scheduler_gamma
  , last_epoch := 0
  , lr := LEARNING_RATE }

theorem set_getD_self (l : List ℚ) (i : ℕ) : l.set i (l.getD i 0) = l := by
  induction l generalizing i with
  | nil => simp
  | cons a t ih =>
      cases i with
      | zero => simp
      | succ j => simpa using ih j

theorem zip_self_foldl_load (h : Heap) (l : List CellId) :
    (l.zip l).foldl (fun acc ds => acc.set ds.1 (h.getD ds.2 0)) h = h := by
  induction l with
  | nil => rfl
  | cons a t ih =>
      show (t.zip t).foldl (fun acc ds => acc.set ds.1 (h.getD ds.2 0))
        (h.set a (h.getD a 0)) = h
      rw [set_getD_self]
      exact ih

/-- Loading a model's own `state_dict` copies every parameter cell onto
itself: it is a no-op on the heap. -/
theorem load_state_dict_self (m : Model) (h : Heap) :
    m.load_state_dict m.state_dict h = h :=
  zip_self_foldl_load h m.paramRefs

/-- Dereferencing the `state_dict` of a model yields the model's current
parameter values, whatever the heap currently holds. -/
theorem state_dict_values (m : Model) (h : Heap) :
    (m.state_dict).values h = m.params h := rfl

theorem epochBody_best_state (env : Env) (m : Model) (s : LoopState) :
    (epochBody env m s).1.best_state =
      if (epochBody env m s).2.recallVal > s.best_recall then m.state_dict
      else s.best_state := rfl

theorem gt_ite_max (a b : ℚ) : (if b > a then b else a) = max a b := by
  rcases lt_or_ge a b with hlt | hge
  · rw [if_pos hlt, max_eq_right hlt.le]
  · rw [if_neg (not_lt.mpr hge), max_eq_left hge]

theorem epochBody_best_recall (env : Env) (m : Model) (s : LoopState) :
    (epochBody env m s).1.best_recall =
      max s.best_recall (epochBody env m s).2.recallVal := by
  have h : (epochBody env m s).1.best_recall =
      if (epochBody env m s).2.recallVal > s.best_recall
      then (epochBody env m s).2.recallVal else s.best_recall := rfl
  rw [h, gt_ite_max]

theorem epochBody_best_f1 (env : Env) (m : Model) (s : LoopState) :
    (epochBody env m s).1.best_f1_score =
      max s.best_f1_score (epochBody env m s).2.f1 := by
  have h : (epochBody env m s).1.best_f1_score =
      if (epochBody env m s).2.f1 > s.best_f1_score
      then (epochBody env m s).2.f1 else s.best_f1_score := rfl
  rw [h, gt_ite_max]

theorem epochBody_dings (env : Env) (m : Model) (s : LoopState) :
    (epochBody env m s).1.dings =
      if (epochBody env m s).2.recallVal > s.best_recall then s.dings + 1
      else s.dings := rfl

theorem epochBody_sched (env : Env) (m : Model) (s : LoopState) :
    (epochBody env m s).1.sched = s.sched.step := rfl

theorem epochBody_lrUsed (env : Env) (m : Model) (s : LoopState) :
    (epochBody env m s).2.lrUsed = s.sched.lr := rfl

/-- The retained `best_state` is, at every reachable point, the model's
own `state_dict` (references to the live parameter cells): both the
initial assignment and every reassignment store exactly
`model.state_dict()`. -/
theorem runLoop_best_state (env : Env) (m : Model) (k : ℕ) (s : LoopState)
    (hs : s.best_state = m.state_dict) :
    (runLoop env m k s).1.best_state = m.state_dict := by
  induction k generalizing s with
  | zero => exact hs
  | succ n ih =>
      show (runLoop env m n (epochBody env m s).1).1.best_state = m.state_dict
      apply ih
      rw [epochBody_best_state]
      split
      · rfl
      · exact hs

/-- Peeling the last iteration off the loop. -/
theorem runLoop_succ_back (env : Env) (m : Model) (n : ℕ) (s : LoopState) :
    runLoop env m (n + 1) s =
      ((epochBody env m (runLoop env m n s).1).1,
        (runLoop env m n s).2 ++ [(epochBody env m (runLoop env m n s).1).2]) := by
  induction n generalizing s with
  | zero => rfl
  | succ k ih =>
      show ((runLoop env m (k + 1) (epochBody env m s).1).1, _)
        = ((epochBody env m (runLoop env m (k + 1) s).1).1, _)
      rw [ih (epochBody env m s).1]
      rfl

theorem runLoop_trace_length (env : Env) (m : Model) (k : ℕ) (s : LoopState) :
    (runLoop env m k s).2.length = k := by
  induction k generalizing s with
  | zero => rfl
  | succ n ih =>
      show ((epochBody env m s).2 :: (runLoop env m n (epochBody env m s).1).2).length = n + 1
      rw [List.length_cons, ih]

theorem runLoop_best_recall_fold (env : Env) (m : Model) (k : ℕ) (s : LoopState) :
    (runLoop env m k s).1.best_recall =
      ((runLoop env m k s).2.map EpochTrace.recallVal).foldl max s.best_recall := by
  induction k generalizing s with
  | zero => rfl
  | succ n ih =>
      show (runLoop env m n (epochBody env m s).1).1.best_recall =
        ((epochBody env m s).2.recallVal ::
          (runLoop env m n (epochBody env m s).1).2.map EpochTrace.recallVal).foldl
            max s.best_recall
      rw [List.foldl_cons, ih, epochBody_best_recall]

theorem runLoop_best_f1_fold (env : Env) (m : Model) (k : ℕ) (s : LoopState) :
    (runLoop env m k s).1.best_f1_score =
      ((runLoop env m k s).2.map EpochTrace.f1).foldl max s.best_f1_score := by
  induction k generalizing s with
  | zero => rfl
  | succ n ih =>
      show (runLoop env m n (epochBody env m s).1).1.best_f1_score =
        ((epochBody env m s).2.f1 ::
          (runLoop env m n (epochBody env m s).1).2.map EpochTrace.f1).foldl
            max s.best_f1_score
      rw [List.foldl_cons, ih, epochBody_best_f1]

theorem sampleTasksF_length (f : Rng → Episode × Rng) (n : ℕ) (r : Rng) :
    (sampleTasksF f n r).1.length = n := by
  induction n generalizing r with
  | zero => rfl
  | succ k ih =>
      show ((f r).1 :: (sampleTasksF f k (f r).2).1).length = k + 1
      rw [List.length_cons, ih]

theorem training_epoch_losses_length (env : Env) (m : Model) (lr : ℚ)
    (eps : List Episode) (h : Heap) :
    (training_epoch env m lr eps h).2.length = eps.length := by
  induction eps generalizing h with
  | nil => rfl
  | cons e t ih =>
      show (_ :: (training_epoch env m lr t _).2).length = t.length + 1
      rw [List.length_cons, ih]

theorem stateAfter_succ (env : Env) (m : Model) (h0 : Heap) (r0 : Rng) (k : ℕ) :
    stateAfter env m h0 r0 (k + 1) = (epochBody env m (stateAfter env m h0 r0 k)).1 := by
  show (runLoop env m (k + 1) (initState m h0 r0)).1 = _
  rw [runLoop_succ_back]
  rfl

/-- Scheduler state after `k` iterations: the milestones and factor are
the configured ones, the step counter equals the number of completed
epochs, and the learning rate has decayed exactly at the milestone
crossings 70 and 85. -/
theorem stateAfter_sched (env : Env) (m : Model) (h0 : Heap) (r0 : Rng) (k : ℕ) :
    (stateAfter env m h0 r0 k).sched =
      { milestones := scheduler_milestones
      , gamma := scheduler_gamma
      , last_epoch := k
      , lr := if k < 70 then LEARNING_RATE
              else if k < 85 then scheduler_gamma * LEARNING_RATE
              else scheduler_gamma * (scheduler_gamma * LEARNING_RATE) } := by
  induction k with
  | zero => rfl
  | succ n ih =>
      rw [stateAfter_succ, epochBody_sched, ih]
      simp only [MultiStepLR.step, scheduler_milestones, List.mem_cons,
        List.mem_singleton, List.not_mem_nil, or_false]
      by_cases h70 : n + 1 = 70
      · have hn : n = 69 := by omega
        subst hn
        norm_num
      · by_cases h85 : n + 1 = 85
        · have hn : n = 84 := by omega
          subst hn
          norm_num
        · rw [if_neg (by omega : ¬(n + 1 = 70 ∨ n + 1 = 85))]
          by_cases ha : n + 1 < 70
          · rw [if_pos (by omega : n < 70), if_pos ha]
          · by_cases hb : n + 1 < 85
            · rw [if_neg (by omega : ¬n < 70), if_pos (by omega : n < 85),
                if_neg ha, if_pos hb]
            · rw [if_neg (by omega : ¬n < 70), if_neg (by omega : ¬n < 85),
                if_neg ha, if_neg hb]

/-- Every entry of the loop's trace records one training pass over
`N_TASKS_PER_EPOCH` episodes with its per-episode losses and their mean,
and one validation pass over `N_VALIDATION_TASKS` episodes whose
predictions yield the recorded recall and F1. -/
theorem runLoop_trace_forall (env : Env) (m : Model) (k : ℕ) (s : LoopState) :
    List.Forall (fun t =>
      t.trainEpisodes.length = N_TASKS_PER_EPOCH ∧
      t.losses.length = N_TASKS_PER_EPOCH ∧
      t.loss = mean t.losses ∧
      t.valEpisodes.length = N_VALIDATION_TASKS ∧
      t.recallVal = recall_score t.actuals t.predictions ∧
      t.f1 = f1_score t.actuals t.predictions) (runLoop env m k s).2 := by
  induction k generalizing s with
  | zero => exact trivial
  | succ n ih =>
      show List.Forall _ ((epochBody env m s).2 :: (runLoop env m n (epochBody env m s).1).2)
      rw [List.forall_cons]
      refine ⟨⟨sampleTasksF_length _ _ _, ?_, rfl, sampleTasksF_length _ _ _, rfl, rfl⟩, ih _⟩
      show (training_epoch env m s.sched.lr
        (sampleTasks env N_TASKS_PER_EPOCH s.rng).1 s.heap).2.length = N_TASKS_PER_EPOCH
      rw [training_epoch_losses_length]
      exact sampleTasksF_length _ _ _

theorem EpochRel_det (env : Env) (m : Model) (s : LoopState)
    (o1 o2 : LoopState × EpochTrace)
    (d1 : EpochRel env m s o1) (d2 : EpochRel env m s o2) : o1 = o2 := by
  cases d1 with
  | step te1 r1 hh1 l1 ve1 q1 ev1 hts1 htr1 hvs1 hev1 =>
      cases d2 with
      | step te2 r2 hh2 l2 ve2 q2 ev2 hts2 htr2 hvs2 hev2 =>
          have hts := hts1.symm.trans hts2
          injection hts with hte hr
          subst hte
          subst hr
          have htr := htr1.symm.trans htr2
          injection htr with hhh hll
          subst hhh
          subst hll
          have hvs := hvs1.symm.trans hvs2
          injection hvs with hve hq
          subst hve
          subst hq
          have hev := hev1.symm.trans hev2
          subst hev
          rfl

theorem RunRel_det (env : Env) (m : Model) (k : ℕ) (s : LoopState)
    (o1 o2 : LoopState × List EpochTrace)
    (d1 : RunRel env m k s o1) (d2 : RunRel env m k s o2) : o1 = o2 := by
  induction d1 generalizing o2 with
  | zero s =>
      cases d2 with
      | zero => rfl
  | succ n s s1 t s2 ts hb hr ih =>
      cases d2 with
      | succ _ _ s1b tb s2b tsb hbb hrb =>
          have hone := EpochRel_det env m s (s1, t) (s1b, tb) hb hbb
          injection hone with hs1 ht
          subst hs1
          subst ht
          have := ih (s2b, tsb) hrb
          injection this with h2 hts
          subst h2
          subst hts
          rfl

set_option maxRecDepth 4000 in
theorem epochBody_eq_finish (env : Env) (m : Model) (s : LoopState) :
    epochBody env m s = epochFinish m s
      (sampleTasks env N_TASKS_PER_EPOCH s.rng).1
      (training_epoch env m s.sched.lr (sampleTasks env N_TASKS_PER_EPOCH s.rng).1 s.heap).1
      (training_epoch env m s.sched.lr (sampleTasks env N_TASKS_PER_EPOCH s.rng).1 s.heap).2
      (sampleTasks env N_VALIDATION_TASKS (sampleTasks env N_TASKS_PER_EPOCH s.rng).2).1
      (sampleTasks env N_VALIDATION_TASKS (sampleTasks env N_TASKS_PER_EPOCH s.rng).2).2
      (evaluate_model env m
        (sampleTasks env N_VALIDATION_TASKS (sampleTasks env N_TASKS_PER_EPOCH s.rng).2).1
        (training_epoch env m s.sched.lr (sampleTasks env N_TASKS_PER_EPOCH s.rng).1 s.heap).1) := by
  unfold epochBody
  rfl

set_option maxRecDepth 8000 in
theorem EpochRel_epochBody (env : Env) (m : Model) (s : LoopState) :
    EpochRel env m s (epochBody env m s) := by
  rw [epochBody_eq_finish]
  exact EpochRel.step s
    (sampleTasks env N_TASKS_PER_EPOCH s.rng).1
    (sampleTasks env N_TASKS_PER_EPOCH s.rng).2
    (training_epoch env m s.sched.lr (sampleTasks env N_TASKS_PER_EPOCH s.rng).1 s.heap).1
    (training_epoch env m s.sched.lr (sampleTasks env N_TASKS_PER_EPOCH s.rng).1 s.heap).2
    (sampleTasks env N_VALIDATION_TASKS (sampleTasks env N_TASKS_PER_EPOCH s.rng).2).1
    (sampleTasks env N_VALIDATION_TASKS (sampleTasks env N_TASKS_PER_EPOCH s.rng).2).2
    (evaluate_model env m
      (sampleTasks env N_VALIDATION_TASKS (sampleTasks env N_TASKS_PER_EPOCH s.rng).2).1
      (training_epoch env m s.sched.lr (sampleTasks env N_TASKS_PER_EPOCH s.rng).1 s.heap).1)
    Prod.mk.eta.symm Prod.mk.eta.symm Prod.mk.eta.symm rfl

/-- The functional loop realizes the big-step relation. -/
theorem RunRel_runLoop (env : Env) (m : Model) (k : ℕ) (s : LoopState) :
    RunRel env m k s (runLoop env m k s) := by
  induction k generalizing s with
  | zero => exact RunRel.zero s
  | succ n ih =>
      show RunRel env m (n + 1) s
        ((runLoop env m n (epochBody env m s).1).1,
          (epochBody env m s).2 :: (runLoop env m n (epochBody env m s).1).2)
      exact RunRel.succ n s (epochBody env m s).1 (epochBody env m s).2 _ _
        (EpochRel_epochBody env m s) (ih (epochBody env m s).1)


theorem runLoop_add (env : Env) (m : Model) (a b : ℕ) (s : LoopState) :
    (runLoop env m (a + b) s).1 = (runLoop env m b (runLoop env m a s).1).1 := by
  induction a generalizing s with
  | zero =>
      rw [Nat.zero_add]
      rfl
  | succ n ih =>
      rw [Nat.succ_add]
      show (runLoop env m (n + b) (epochBody env m s).1).1 = _
      rw [ih (epochBody env m s).1]
      rfl


theorem runLoop_add_trace (env : Env) (m : Model) (a b : ℕ) (s : LoopState) :
    (runLoop env m (a + b) s).2
      = (runLoop env m a s).2 ++ (runLoop env m b (runLoop env m a s).1).2 := by
  induction a generalizing s with
  | zero =>
      rw [Nat.zero_add]
      rfl
  | succ n ih =>
      rw [Nat.succ_add]
      show (epochBody env m s).2 :: (runLoop env m (n + b) (epochBody env m s).1).2 = _
      rw [ih (epochBody env m s).1]
      rfl

theorem forall_append_of (p : EpochTrace → Prop) (l1 l2 : List EpochTrace)
    (h1 : List.Forall p l1) (h2 : List.Forall p l2) : List.Forall p (l1 ++ l2) := by
  induction l1 with
  | nil => exact h2
  | cons a t ih =>
      rw [List.cons_append, List.forall_cons]
      rw [List.forall_cons] at h1
      exact ⟨h1.1, ih h1.2⟩

theorem forall_recall_zero_of_map (l : List EpochTrace)
    (h : l.map EpochTrace.recallVal = List.replicate l.length 0) :
    List.Forall (fun t => t.recallVal = (0 : ℚ)) l := by
  induction l with
  | nil => exact trivial
  | cons a t ih =>
      rw [List.map_cons, List.length_cons, List.replicate_succ] at h
      injection h with h1 h2
      rw [List.forall_cons]
      exact ⟨h1, ih h2⟩

theorem zeroRecall_sampleTasks_rng (n : ℕ) (r : Rng) :
    (sampleTasksF zeroRecallEnv.sampleTask n r).2 = r := by
  induction n generalizing r with
  | zero => rfl
  | succ k ih => exact ih r

theorem zeroRecall_body_rng (m : Model) (s : LoopState) :
    (epochBody zeroRecallEnv m s).1.rng = s.rng := by
  show (sampleTasksF zeroRecallEnv.sampleTask N_VALIDATION_TASKS
    (sampleTasksF zeroRecallEnv.sampleTask N_TASKS_PER_EPOCH s.rng).2).2 = s.rng
  rw [zeroRecall_sampleTasks_rng, zeroRecall_sampleTasks_rng]

theorem zeroRecall_run_rng (m : Model) (k : ℕ) (s : LoopState) :
    (runLoop zeroRecallEnv m k s).1.rng = s.rng := by
  induction k generalizing s with
  | zero => rfl
  | succ n ih =>
      show (runLoop zeroRecallEnv m n (epochBody zeroRecallEnv m s).1).1.rng = s.rng
      rw [ih, zeroRecall_body_rng]

theorem loopState_eq (a b : LoopState)
    (h1 : a.heap = b.heap) (h2 : a.best_state = b.best_state)
    (h3 : a.best_f1_score = b.best_f1_score) (h4 : a.best_recall = b.best_recall)
    (h5 : a.sched = b.sched) (h6 : a.rng = b.rng) (h7 : a.dings = b.dings) : a = b := by
  cases a
  cases b
  rw [LoopState.mk.injEq]
  exact ⟨h1, h2, h3, h4, h5, h6, h7⟩

set_option maxRecDepth 1000000 in
theorem zr_state_20 :
    (runLoop zeroRecallEnv cexModel 20 cexInit).1 = zrState 20 LEARNING_RATE :=
  loopState_eq _ _ (by with_unfolding_all rfl) (by with_unfolding_all rfl)
    (by with_unfolding_all rfl) (by with_unfolding_all rfl) (by with_unfolding_all rfl)
    (zeroRecall_run_rng cexModel 20 cexInit) (by with_unfolding_all rfl)

set_option maxRecDepth 1000000 in
theorem zr_state_40 :
    (runLoop zeroRecallEnv cexModel 20 (zrState 20 LEARNING_RATE)).1
      = zrState 40 LEARNING_RATE :=
  loopState_eq _ _ (by with_unfolding_all rfl) (by with_unfolding_all rfl)
    (by with_unfolding_all rfl) (by with_unfolding_all rfl) (by with_unfolding_all rfl)
    (zeroRecall_run_rng cexModel 20 (zrState 20 LEARNING_RATE)) (by with_unfolding_all rfl)

set_option maxRecDepth 1000000 in
theorem zr_state_60 :
    (runLoop zeroRecallEnv cexModel 20 (zrState 40 LEARNING_RATE)).1
      = zrState 60 LEARNING_RATE :=
  loopState_eq _ _ (by with_unfolding_all rfl) (by with_unfolding_all rfl)
    (by with_unfolding_all rfl) (by with_unfolding_all rfl) (by with_unfolding_all rfl)
    (zeroRecall_run_rng cexModel 20 (zrState 40 LEARNING_RATE)) (by with_unfolding_all rfl)

set_option maxRecDepth 1000000 in
theorem zr_state_80 :
    (runLoop zeroRecallEnv cexModel 20 (zrState 60 LEARNING_RATE)).1
      = zrState 80 (1 / 10000) :=
  loopState_eq _ _ (by with_unfolding_all rfl) (by with_unfolding_all rfl)
    (by with_unfolding_all rfl) (by with_unfolding_all rfl) (by with_unfolding_all rfl)
    (zeroRecall_run_rng cexModel 20 (zrState 60 LEARNING_RATE)) (by with_unfolding_all rfl)

set_option maxRecDepth 1000000 in
theorem zr_state_100 :
    (runLoop zeroRecallEnv cexModel 20 (zrState 80 (1 / 10000))).1
      = zrState 100 (1 / 100000) :=
  loopState_eq _ _ (by with_unfolding_all rfl) (by with_unfolding_all rfl)
    (by with_unfolding_all rfl) (by with_unfolding_all rfl) (by with_unfolding_all rfl)
    (zeroRecall_run_rng cexModel 20 (zrState 80 (1 / 10000))) (by with_unfolding_all rfl)

set_option maxRecDepth 1000000 in
theorem zr_trace_20 :
    ((runLoop zeroRecallEnv cexModel 20 cexInit).2.map EpochTrace.recallVal)
      = List.replicate 20 0 := by
  with_unfolding_all rfl

set_option maxRecDepth 1000000 in
theorem zr_trace_40 :
    ((runLoop zeroRecallEnv cexModel 20 (zrState 20 LEARNING_RATE)).2.map EpochTrace.recallVal)
      = List.replicate 20 0 := by
  with_unfolding_all rfl

set_option maxRecDepth 1000000 in
theorem zr_trace_60 :
    ((runLoop zeroRecallEnv cexModel 20 (zrState 40 LEARNING_RATE)).2.map EpochTrace.recallVal)
      = List.replicate 20 0 := by
  with_unfolding_all rfl

set_option maxRecDepth 1000000 in
theorem zr_trace_80 :
    ((runLoop zeroRecallEnv cexModel 20 (zrState 60 LEARNING_RATE)).2.map EpochTrace.recallVal)
      = List.replicate 20 0 := by
  with_unfolding_all rfl

set_option maxRecDepth 1000000 in
theorem zr_trace_100 :
    ((runLoop zeroRecallEnv cexModel 20 (zrState 80 (1 / 10000))).2.map EpochTrace.recallVal)
      = List.replicate 20 0 := by
  with_unfolding_all rfl

theorem zeroRecall_finalState :
    finalState zeroRecallEnv cexModel [0] random_seed = zrState 100 (1 / 100000) := by
  have h1 := runLoop_add zeroRecallEnv cexModel 20 80 cexInit
  rw [zr_state_20] at h1
  have h2 := runLoop_add zeroRecallEnv cexModel 20 60 (zrState 20 LEARNING_RATE)
  rw [zr_state_40] at h2
  have h3 := runLoop_add zeroRecallEnv cexModel 20 40 (zrState 40 LEARNING_RATE)
  rw [zr_state_60] at h3
  have h4 := runLoop_add zeroRecallEnv cexModel 20 20 (zrState 60 LEARNING_RATE)
  rw [zr_state_80] at h4
  show (runLoop zeroRecallEnv cexModel (20 + 80) cexInit).1 = _
  rw [h1]
  show (runLoop zeroRecallEnv cexModel (20 + 60) (zrState 20 LEARNING_RATE)).1 = _
  rw [h2]
  show (runLoop zeroRecallEnv cexModel (20 + 40) (zrState 40 LEARNING_RATE)).1 = _
  rw [h3]
  show (runLoop zeroRecallEnv cexModel (20 + 20) (zrState 60 LEARNING_RATE)).1 = _
  rw [h4]
  exact zr_state_100

theorem forall_chunk (l : List EpochTrace) (h : l.map EpochTrace.recallVal = List.replicate 20 0) :
    List.Forall (fun t => t.recallVal = (0 : ℚ)) l := by
  apply forall_recall_zero_of_map
  have hl : l.length = 20 := by
    rw [← List.length_map l EpochTrace.recallVal, h, List.length_replicate]
  rw [hl, h]

theorem zeroRecall_trace :
    List.Forall (fun t => t.recallVal = (0 : ℚ))
      (trainingTrace zeroRecallEnv cexModel [0] random_seed) := by
  show List.Forall _ (runLoop zeroRecallEnv cexModel N_EPOCHS cexInit).2
  have h1 := runLoop_add_trace zeroRecallEnv cexModel 20 80 cexInit
  rw [zr_state_20] at h1
  have h2 := runLoop_add_trace zeroRecallEnv cexModel 20 60 (zrState 20 LEARNING_RATE)
  rw [zr_state_40] at h2
  have h3 := runLoop_add_trace zeroRecallEnv cexModel 20 40 (zrState 40 LEARNING_RATE)
  rw [zr_state_60] at h3
  have h4 := runLoop_add_trace zeroRecallEnv cexModel 20 20 (zrState 60 LEARNING_RATE)
  rw [zr_state_80] at h4
  show List.Forall _ (runLoop zeroRecallEnv cexModel (20 + 80) cexInit).2
  rw [h1]
  refine forall_append_of _ _ _ (forall_chunk _ zr_trace_20) ?_
  show List.Forall _ (runLoop zeroRecallEnv cexModel (20 + 60) (zrState 20 LEARNING_RATE)).2
  rw [h2]
  refine forall_append_of _ _ _ (forall_chunk _ zr_trace_40) ?_
  show List.Forall _ (runLoop zeroRecallEnv cexModel (20 + 40) (zrState 40 LEARNING_RATE)).2
  rw [h3]
  refine forall_append_of _ _ _ (forall_chunk _ zr_trace_60) ?_
  show List.Forall _ (runLoop zeroRecallEnv cexModel (20 + 20) (zrState 60 LEARNING_RATE)).2
  rw [h4]
  exact forall_append_of _ _ _ (forall_chunk _ zr_trace_80) (forall_chunk _ zr_trace_100)


/-- If no epoch of a run improves on a non-negative running best recall,
the recall branch never fires: no print happens, and `best_recall` and
`best_state` are left untouched. -/
theorem runLoop_no_ding (env : Env) (m : Model) (k : ℕ) (s : LoopState)
    (hbr : 0 ≤ s.best_recall)
    (hz : List.Forall (fun t => t.recallVal ≤ 0) (runLoop env m k s).2) :
    (runLoop env m k s).1.dings = s.dings ∧
    (runLoop env m k s).1.best_recall = s.best_recall ∧
    (runLoop env m k s).1.best_state = s.best_state := by
  induction k generalizing s with
  | zero => exact ⟨rfl, rfl, rfl⟩
  | succ n ih =>
      rw [show (runLoop env m (n + 1) s).2
          = (epochBody env m s).2 :: (runLoop env m n (epochBody env m s).1).2 from rfl,
        List.forall_cons] at hz
      obtain ⟨h1, hrest⟩ := hz
      have hnot : ¬((epochBody env m s).2.recallVal > s.best_recall) :=
        not_lt.mpr (le_trans h1 hbr)
      have hd : (epochBody env m s).1.dings = s.dings := by
        rw [epochBody_dings, if_neg hnot]
      have hbs : (epochBody env m s).1.best_state = s.best_state := by
        rw [epochBody_best_state, if_neg hnot]
      have hbr2 : (epochBody env m s).1.best_recall = s.best_recall := by
        rw [epochBody_best_recall]
        exact max_eq_left (le_trans h1 hbr)
      obtain ⟨d1, d2, d3⟩ := ih (epochBody env m s).1 (hbr2 ▸ hbr) hrest
      refine ⟨?_, ?_, ?_⟩
      · show (runLoop env m n (epochBody env m s).1).1.dings = s.dings
        rw [d1, hd]
      · show (runLoop env m n (epochBody env m s).1).1.best_recall = s.best_recall
        rw [d2, hbr2]
      · show (runLoop env m n (epochBody env m s).1).1.best_state = s.best_state
        rw [d3, hbs]



/-- C1: In every iteration of the training loop body, the retained
best-state snapshot is replaced (and the "new best model" line printed)
exactly when that epoch's validation recall strictly exceeds the running
best recall; the best F1 score is tracked as a scalar only, by its own
strict comparison, and an F1 improvement never touches the snapshot — the
snapshot update depends only on the recall comparison. -/
theorem snapshot_keyed_on_recall_only (env : Env) (m : Model) (s : LoopState) :
    ((epochBody env m s).1.best_state =
      if (epochBody env m s).2.recallVal > s.best_recall then m.state_dict
      else s.best_state) ∧
    ((epochBody env m s).1.dings =
      if (epochBody env m s).2.recallVal > s.best_recall then s.dings + 1
      else s.dings) ∧
    ((epochBody env m s).1.best_f1_score =
      if (epochBody env m s).2.f1 > s.best_f1_score then (epochBody env m s).2.f1
      else s.best_f1_score) :=
  ⟨epochBody_best_state env m s, epochBody_dings env m s, rfl⟩

set_option maxRecDepth 1000000 in
/-- C2 (failing input): under `cexEnv`, epoch 0 attains recall 1 (the
best epoch) with parameter value 10 at its end, epoch 1 attains recall 0,
yet after epoch 1 the retained `best_state` dereferences to the CURRENT
parameter value 20, not the best epoch's 10 — `best_state` is a reference
to the live parameters, not a frozen snapshot of the best epoch.  The
final conjunct places this state on the trajectory of the full
`N_EPOCHS` run. -/
theorem best_state_not_a_frozen_snapshot :
    ((runLoop cexEnv cexModel 2 cexInit).2.map EpochTrace.recallVal = [1, 0]) ∧
    ((runLoop cexEnv cexModel 1 cexInit).1.heap = [10]) ∧
    ((runLoop cexEnv cexModel 2 cexInit).1.best_recall = 1) ∧
    (StateDict.values (runLoop cexEnv cexModel 2 cexInit).1.best_state
        (runLoop cexEnv cexModel 2 cexInit).1.heap = [20]) ∧
    ((runLoop cexEnv cexModel N_EPOCHS cexInit).1
        = (runLoop cexEnv cexModel 98 (runLoop cexEnv cexModel 2 cexInit).1).1) :=
  ⟨by with_unfolding_all rfl, by with_unfolding_all rfl, by with_unfolding_all rfl,
    by with_unfolding_all rfl, runLoop_add cexEnv cexModel 2 98 cexInit⟩

/-- C3: after the final epoch and the single `load_state_dict(best_state)`
call, the live model's parameters equal the values of the retained best
snapshot. -/
theorem final_params_equal_best_snapshot (env : Env) (m : Model) (h0 : Heap) (r0 : Rng) :
    m.params (finalHeap env m h0 r0) =
      StateDict.values (finalState env m h0 r0).best_state (finalHeap env m h0 r0) := by
  have hbs : (finalState env m h0 r0).best_state = m.state_dict :=
    runLoop_best_state env m N_EPOCHS (initState m h0 r0) rfl
  rw [hbs, state_dict_values]

/-- C4: `best_state` is assigned `model.state_dict()` without a deep
copy, so at every point of the run it is exactly the model's
`state_dict` — references to the live parameter cells; hence its
dereferenced values always equal the CURRENT parameters, and the final
`load_state_dict(best_state)` leaves the heap unchanged from its
last-epoch values. -/
theorem best_state_aliases_live_params (env : Env) (m : Model) (h0 : Heap) (r0 : Rng) (k : ℕ) :
    ((runLoop env m k (initState m h0 r0)).1.best_state = m.state_dict) ∧
    (StateDict.values (runLoop env m k (initState m h0 r0)).1.best_state
        (runLoop env m k (initState m h0 r0)).1.heap
      = m.params (runLoop env m k (initState m h0 r0)).1.heap) ∧
    (finalHeap env m h0 r0 = (finalState env m h0 r0).heap) := by
  refine ⟨runLoop_best_state env m k (initState m h0 r0) rfl, ?_, ?_⟩
  · rw [runLoop_best_state env m k (initState m h0 r0) rfl, state_dict_values]
  · have hbs : (finalState env m h0 r0).best_state = m.state_dict :=
      runLoop_best_state env m N_EPOCHS (initState m h0 r0) rfl
    show m.load_state_dict (finalState env m h0 r0).best_state (finalState env m h0 r0).heap = _
    rw [hbs, load_state_dict_self]

/-- C5: each loop iteration advances the scheduler exactly once, after
the validation pass (the training pass of the iteration uses the
pre-step learning rate); a step multiplies the learning rate by `gamma`
exactly when the incremented counter hits a milestone; consequently,
after `k` epochs the counter is `k` and the learning rate is the initial
0.001 decayed by 0.1 exactly at the milestone crossings 70 and 85. -/
theorem scheduler_steps_once_per_epoch_and_decays_at_milestones
    (env : Env) (m : Model) (h0 : Heap) (r0 : Rng) (k : ℕ)
    (s : LoopState) (sch : MultiStepLR) :
    ((epochBody env m s).1.sched = s.sched.step) ∧
    ((epochBody env m s).2.lrUsed = s.sched.lr) ∧
    (sch.step.last_epoch = sch.last_epoch + 1) ∧
    (sch.step.lr = if sch.last_epoch + 1 ∈ sch.milestones then sch.gamma * sch.lr
      else sch.lr) ∧
    ((stateAfter env m h0 r0 k).sched.last_epoch = k) ∧
    ((stateAfter env m h0 r0 k).sched.lr =
      if k < 70 then LEARNING_RATE
      else if k < 85 then scheduler_gamma * LEARNING_RATE
      else scheduler_gamma * (scheduler_gamma * LEARNING_RATE)) :=
  ⟨rfl, rfl, rfl, rfl, by rw [stateAfter_sched], by rw [stateAfter_sched]⟩

/-- C6: the loop is deterministic: from the seeded initial state, any two
big-step executions of the `N_EPOCHS` loop produce the same final state
and the same per-epoch trace — the same sampled episodes and the same
loss/recall/F1 at every epoch. -/
theorem fixed_seed_runs_identical (env : Env) (m : Model) (h0 : Heap)
    (o1 o2 : LoopState × List EpochTrace)
    (d1 : RunRel env m N_EPOCHS (initState m h0 random_seed) o1)
    (d2 : RunRel env m N_EPOCHS (initState m h0 random_seed) o2) :
    o1 = o2 :=
  RunRel_det env m N_EPOCHS (initState m h0 random_seed) o1 o2 d1 d2

/-- C6 witness: two executions of the seeded run, both obtained from the
big-step relation, have equal outcomes. -/
theorem fixed_seed_runs_identical_witness :
    runLoop cexEnv cexModel N_EPOCHS (initState cexModel [0] random_seed)
      = runLoop cexEnv cexModel N_EPOCHS (initState cexModel [0] random_seed) :=
  fixed_seed_runs_identical cexEnv cexModel [0]
    (runLoop cexEnv cexModel N_EPOCHS (initState cexModel [0] random_seed))
    (runLoop cexEnv cexModel N_EPOCHS (initState cexModel [0] random_seed))
    (RunRel_runLoop cexEnv cexModel N_EPOCHS (initState cexModel [0] random_seed))
    (RunRel_runLoop cexEnv cexModel N_EPOCHS (initState cexModel [0] random_seed))

/-- C7: the loop runs exactly `N_EPOCHS` iterations (one trace entry
each); every iteration performs one training pass over exactly
`N_TASKS_PER_EPOCH` sampled episodes whose per-episode losses are
averaged into the epoch loss, and one validation pass over exactly
`N_VALIDATION_TASKS` sampled episodes whose predictions yield the
recorded recall and F1. -/
theorem loop_shape_epochs_tasks_metrics (env : Env) (m : Model) (h0 : Heap) (r0 : Rng) :
    (trainingTrace env m h0 r0).length = N_EPOCHS ∧
    List.Forall (fun t =>
      t.trainEpisodes.length = N_TASKS_PER_EPOCH ∧
      t.losses.length = N_TASKS_PER_EPOCH ∧
      t.loss = mean t.losses ∧
      t.valEpisodes.length = N_VALIDATION_TASKS ∧
      t.recallVal = recall_score t.actuals t.predictions ∧
      t.f1 = f1_score t.actuals t.predictions) (trainingTrace env m h0 r0) :=
  ⟨runLoop_trace_length env m N_EPOCHS (initState m h0 r0),
    runLoop_trace_forall env m N_EPOCHS (initState m h0 r0)⟩

/-- C8: the loop catches no exceptions: if the first `a` epochs succeed
and the next epoch's library call raises `err`, the whole `a + (b + 1)`
epoch run aborts with exactly that error — no retry, no recovery, no
remaining epochs. -/
theorem uncaught_exception_aborts_run (env : EnvE) (m : Model) (a b : ℕ)
    (s s1 : LoopState) (tr : List EpochTrace) (err : Err)
    (hok : runLoopE env m a s = .ok (s1, tr))
    (herr : epochBodyE env m s1 = .error err) :
    runLoopE env m (a + (b + 1)) s = .error err := by
  induction a generalizing s tr with
  | zero =>
      injection hok with h
      injection h with hs ht
      rw [← hs] at herr
      rw [Nat.zero_add]
      show (epochBodyE env m s >>= fun bt =>
        runLoopE env m b bt.1 >>= fun rest => pure (rest.1, bt.2 :: rest.2)) = .error err
      rw [herr]
      rfl
  | succ n ih =>
      rw [Nat.succ_add]
      cases hbt : epochBodyE env m s with
      | error e =>
          rw [show runLoopE env m (n + 1) s = (epochBodyE env m s >>= fun bt =>
            runLoopE env m n bt.1 >>= fun rest => pure (rest.1, bt.2 :: rest.2)) from rfl,
            hbt] at hok
          exact Except.noConfusion hok
      | ok bt =>
          rw [show runLoopE env m (n + 1) s = (epochBodyE env m s >>= fun bt =>
            runLoopE env m n bt.1 >>= fun rest => pure (rest.1, bt.2 :: rest.2)) from rfl,
            hbt] at hok
          cases hrest : runLoopE env m n bt.1 with
          | error e2 =>
              have hok2 : (runLoopE env m n bt.1 >>=
                  fun rest => pure (rest.1, bt.2 :: rest.2)) = Except.ok (s1, tr) := hok
              rw [hrest] at hok2
              exact Except.noConfusion hok2
          | ok rest =>
              have hok2 : (runLoopE env m n bt.1 >>=
                  fun rest => pure (rest.1, bt.2 :: rest.2)) = Except.ok (s1, tr) := hok
              rw [hrest] at hok2
              injection hok2 with h
              injection h with hs ht
              show (epochBodyE env m s >>= fun bt2 =>
                runLoopE env m (n + (b + 1)) bt2.1 >>=
                  fun r2 => pure (r2.1, bt2.2 :: r2.2)) = .error err
              rw [hbt]
              show (runLoopE env m (n + (b + 1)) bt.1 >>=
                fun r2 => pure (r2.1, bt.2 :: r2.2)) = .error err
              rw [ih bt.1 rest.2 (by rw [hrest, ← hs])]
              rfl

/-- C8 witness: a training-pass exception at epoch 0 aborts the whole
`N_EPOCHS` run with that error. -/
theorem uncaught_exception_aborts_run_witness :
    runLoopE failEnvE cexModel N_EPOCHS (initState cexModel [0] random_seed)
      = .error "NaN loss" :=
  uncaught_exception_aborts_run failEnvE cexModel 0 99
    (initState cexModel [0] random_seed) (initState cexModel [0] random_seed)
    [] "NaN loss" rfl rfl

/-- C9: `best_recall` and `best_f1_score` never decrease from one epoch
to the next, and after the loop — these are the printed final values —
each equals the fold of `max` over the per-epoch validation metrics
starting from its initial value 0.0, i.e. the maximum of 0.0 and the
largest per-epoch metric. -/
theorem best_metrics_monotone_and_final_max (env : Env) (m : Model) (h0 : Heap) (r0 : Rng) :
    (∀ k, (stateAfter env m h0 r0 k).best_recall
        ≤ (stateAfter env m h0 r0 (k + 1)).best_recall ∧
      (stateAfter env m h0 r0 k).best_f1_score
        ≤ (stateAfter env m h0 r0 (k + 1)).best_f1_score) ∧
    ((finalState env m h0 r0).best_recall =
      ((trainingTrace env m h0 r0).map EpochTrace.recallVal).foldl max 0) ∧
    ((finalState env m h0 r0).best_f1_score =
      ((trainingTrace env m h0 r0).map EpochTrace.f1).foldl max 0) := by
  refine ⟨fun k => ?_, runLoop_best_recall_fold env m N_EPOCHS (initState m h0 r0),
    runLoop_best_f1_fold env m N_EPOCHS (initState m h0 r0)⟩
  rw [stateAfter_succ]
  exact ⟨by rw [epochBody_best_recall]; exact le_max_left _ _,
    by rw [epochBody_best_f1]; exact le_max_left _ _⟩

set_option maxRecDepth 1000000 in
/-- C10 counterexample: on `zeroRecallEnv` every epoch's validation
recall is 0, the recall branch never fires (`dings = 0`) and `best_state`
is never reassigned away from the initial `state_dict`; yet after the
final `load_state_dict` the model's parameter is the trained final-epoch
value 5, not the untrained initial value 0 — the reported model is NOT
the untrained initial model. -/
theorem untrained_model_not_restored :
    List.Forall (fun t => t.recallVal = (0 : ℚ))
      (trainingTrace zeroRecallEnv cexModel [0] random_seed) ∧
    (finalState zeroRecallEnv cexModel [0] random_seed).dings = 0 ∧
    (finalState zeroRecallEnv cexModel [0] random_seed).best_state = cexModel.state_dict ∧
    cexModel.params (finalHeap zeroRecallEnv cexModel [0] random_seed) = [5] ∧
    cexModel.params [0] = [0] := by
  refine ⟨zeroRecall_trace, ?_, ?_, ?_, rfl⟩
  · rw [zeroRecall_finalState]
    rfl
  · rw [zeroRecall_finalState]
    rfl
  · show cexModel.params (Model.load_state_dict cexModel
      (finalState zeroRecallEnv cexModel [0] random_seed).best_state
      (finalState zeroRecallEnv cexModel [0] random_seed).heap) = [5]
    rw [zeroRecall_finalState]
    with_unfolding_all rfl

/-- C10 (amended): if no epoch's validation recall strictly exceeds 0.0,
the recall branch never fires — nothing is printed, `best_recall` stays 0
and `best_state` remains the `state_dict` created before epoch 0, and an
epoch whose recall does not strictly exceed the running best (ties
included) leaves `best_state` and the print count untouched; the final
`load_state_dict` is then a no-op on the live parameters, so the loop
reports the final-epoch parameters, not the untrained initial ones. -/
theorem no_recall_improvement_amended (env : Env) (m : Model) (h0 : Heap) (r0 : Rng)
    (hz : List.Forall (fun t => t.recallVal ≤ 0) (trainingTrace env m h0 r0)) :
    (finalState env m h0 r0).dings = 0 ∧
    (finalState env m h0 r0).best_recall = 0 ∧
    (finalState env m h0 r0).best_state = m.state_dict ∧
    finalHeap env m h0 r0 = (finalState env m h0 r0).heap ∧
    (∀ s : LoopState, ¬((epochBody env m s).2.recallVal > s.best_recall) →
      (epochBody env m s).1.best_state = s.best_state ∧
      (epochBody env m s).1.dings = s.dings) := by
  obtain ⟨d1, d2, d3⟩ := runLoop_no_ding env m N_EPOCHS (initState m h0 r0) le_rfl hz
  have d3h : (finalState env m h0 r0).best_state = m.state_dict := d3
  refine ⟨d1, d2, d3, ?_, ?_⟩
  · show m.load_state_dict (finalState env m h0 r0).best_state
      (finalState env m h0 r0).heap = _
    rw [d3h]
    exact load_state_dict_self m _
  · intro s hnot
    exact ⟨by rw [epochBody_best_state, if_neg hnot],
      by rw [epochBody_dings, if_neg hnot]⟩

set_option maxRecDepth 1000000 in
/-- C10 amended-claim witness at the concrete zero-recall environment. -/
theorem no_recall_improvement_amended_witness :
    (finalState zeroRecallEnv cexModel [0] random_seed).dings = 0 ∧
    (finalState zeroRecallEnv cexModel [0] random_seed).best_recall = 0 ∧
    (finalState zeroRecallEnv cexModel [0] random_seed).best_state = cexModel.state_dict ∧
    finalHeap zeroRecallEnv cexModel [0] random_seed
      = (finalState zeroRecallEnv cexModel [0] random_seed).heap ∧
    ((epochBody zeroRecallEnv cexModel cexInit).1.best_state = cexInit.best_state ∧
      (epochBody zeroRecallEnv cexModel cexInit).1.dings = cexInit.dings) := by
  have hz : List.Forall (fun t => t.recallVal ≤ 0)
      (trainingTrace zeroRecallEnv cexModel [0] random_seed) :=
    List.forall_iff_forall_mem.2 (fun t ht =>
      le_of_eq (List.forall_iff_forall_mem.1 zeroRecall_trace t ht))
  have h := no_recall_improvement_amended zeroRecallEnv cexModel [0] random_seed hz
  have hr0 : (epochBody zeroRecallEnv cexModel cexInit).2.recallVal = (0 : ℚ) := by
    with_unfolding_all rfl
  refine ⟨h.1, h.2.1, h.2.2.1, h.2.2.2.1, h.2.2.2.2 cexInit ?_⟩
  intro hgt
  rw [hr0] at hgt
  exact lt_irrefl 0 hgt


end FewShot
